import Mathlib

/-!
Verification development for the Stuntify-API prediction service
(`src/app.py`).  The service wraps four externally trained sklearn
artifacts (classifier, scaler, gender encoder, label encoder) behind two
FastAPI routes.  We embed the module-level state, the loader and the two
route handlers as pure Lean functions with explicit state passing, and
prove the specified properties about them.
-/

namespace Stuntify

/-- A Python exception reaching the handler of `/predict-stunting`.
The source distinguishes `KeyError` from every other exception
(`src/app.py` lines 144-149), so the embedding keeps that split. -/
inductive PyError where
  | keyError (msg : String)
  | otherError (msg : String)
  deriving DecidableEq, Repr

/-- Embedding of the pydantic model `ConditionInput` (`src/app.py` lines
26-30).  `jenis_kelamin` is `Optional[str]`, hence `Option String`; the
three numeric fields are plain `int`/`float`, embedded as `Int`/`ℚ`. -/
structure ConditionInput where
  jenis_kelamin : Option String
  umur : Int
  tinggi : ℚ
  berat : ℚ
  deriving DecidableEq, Repr

/-- An sklearn `LabelEncoder` artifact: a fixed ordered vocabulary
`classes_`; `transform` maps a label to its index, `inverse_transform`
maps an index back.  Used for both the gender encoder
(`Jenis Kelamin_encoder.joblib`) and the target encoder
(`Stunting_encoder.joblib`). -/
structure LabelEncoder where
  classes : List String
  deriving DecidableEq, Repr

/-- Embeds `encoder.transform([x])[0]`: the index of `x` in the trained
vocabulary.  sklearn raises `ValueError` on an unseen label and
`TypeError` when handed `None`; both are ordinary (non-`KeyError`)
exceptions. -/
def LabelEncoder.transform1 (e : LabelEncoder) (x : Option String) : Except PyError ℚ :=
  match x with
  | none => .error (.otherError "TypeError: encoders require string labels, got None")
  | some s =>
    if s ∈ e.classes then .ok (e.classes.indexOf s : ℕ)
    else .error (.otherError ("ValueError: y contains previously unseen labels: " ++ s))

/-- Embeds `encoder.inverse_transform([n])[0]`: the label stored at index `n`;
an out-of-range code raises `IndexError` (an ordinary exception). -/
def LabelEncoder.inverse_transform1 (e : LabelEncoder) (n : Nat) : Except PyError String :=
  match e.classes[n]? with
  | some s => .ok s
  | none => .error (.otherError "IndexError: label code out of bounds")

/-- An sklearn `StandardScaler` artifact fit on the three numeric columns
(age, height, weight): per-column fitted mean and scale. -/
structure Scaler where
  mean : ℚ × ℚ × ℚ
  scale : ℚ × ℚ × ℚ
  deriving DecidableEq, Repr

/-- Embeds `scaler.transform([[a, h, w]])[0]`: subtract the fitted mean and
divide by the fitted scale, column by column. -/
def Scaler.transform1 (sc : Scaler) (v : ℚ × ℚ × ℚ) : ℚ × ℚ × ℚ :=
  ((v.1 - sc.mean.1) / sc.scale.1,
   (v.2.1 - sc.mean.2.1) / sc.scale.2.1,
   (v.2.2 - sc.mean.2.2) / sc.scale.2.2)

/-- The trained classifier (`best_model.joblib`).  The source treats it as
an opaque object whose `predict` method maps one numeric feature row to
one encoded class label, possibly raising; we embed exactly that
interface. -/
structure Classifier where
  predict : List ℚ → Except PyError Nat

/-- The four module-level globals of `src/app.py` (lines 35-38), all
initialized to `None`. -/
structure ServerState where
  model : Option Classifier
  scaler : Option Scaler
  jk_encoder : Option LabelEncoder
  stunting_encoder : Option LabelEncoder

/-- The initial process state: `model = scaler = jk_encoder =
stunting_encoder = None`. -/
def initialState : ServerState := ⟨none, none, none, none⟩

/-- The on-disk artifact store: what `joblib.load` yields for each of the
four fixed file names next to `app.py`.  `none` means the load of that
file raises (missing file, corrupt or version-mismatched pickle). -/
structure Storage where
  best_model : Option Classifier
  scaler : Option Scaler
  jk_encoder : Option LabelEncoder
  stunting_encoder : Option LabelEncoder

/-- Embedding of `load_models` (`src/app.py` lines 43-69).  The guard
checks only whether `model is None`; the four `joblib.load` calls run in
sequence inside one `try`, and each global is assigned as soon as its own
load succeeds, so an exception at a later file leaves the earlier
assignments in place, is caught, and the function returns `False`. -/
def load_models (st : Storage) (s : ServerState) : Bool × ServerState :=
  if s.model.isSome then (true, s)
  else
    match st.best_model with
    | none => (false, s)
    | some m =>
      match st.scaler with
      | none => (false, { s with model := some m })
      | some sc =>
        match st.jk_encoder with
        | none => (false, { s with model := some m, scaler := some sc })
        | some jk =>
          match st.stunting_encoder with
          | none =>
            (false, { s with model := some m, scaler := some sc, jk_encoder := some jk })
          | some se => (true, ⟨some m, some sc, some jk, some se⟩)

/-- Calling a method on a global that is still `None` raises
`AttributeError`, an ordinary exception. -/
def getattr {α : Type} (x : Option α) (method : String) : Except PyError α :=
  match x with
  | some a => .ok a
  | none => .error (.otherError ("AttributeError: NoneType object has no attribute " ++ method))

/-- The body of the `try` block of `predict` (`src/app.py` lines
106-142): extract the validated fields, encode the gender, scale the
numeric triple, build the feature row
`[jk_encoded, umur_scaled, tinggi_scaled, berat_scaled]`, run the
classifier and decode its output. -/
def tryPipeline (s : ServerState) (data : ConditionInput) : Except PyError String := do
  let jk_string := data.jenis_kelamin
  let umur := data.umur
  let tinggi := data.tinggi
  let berat := data.berat
  let jkE ← getattr s.jk_encoder "transform"
  let jk_encoded ← jkE.transform1 jk_string
  let sc ← getattr s.scaler "transform"
  let scaled_features := sc.transform1 ((umur : ℚ), tinggi, berat)
  let umur_scaled := scaled_features.1
  let tinggi_scaled := scaled_features.2.1
  let berat_scaled := scaled_features.2.2
  let final_features := [jk_encoded, umur_scaled, tinggi_scaled, berat_scaled]
  let m ← getattr s.model "predict"
  let prediction_encoded ← m.predict final_features
  let se ← getattr s.stunting_encoder "inverse_transform"
  let output ← se.inverse_transform1 prediction_encoded
  return output

/-- An HTTP response of the `/predict-stunting` route: either the 200
body `{"prediction": label}` or an error with a status code and detail
string. -/
inductive PResponse where
  | prediction (label : String)
  | fail (status : Nat) (detail : String)
  deriving DecidableEq, Repr

/-- The HTTP status code of a response; FastAPI sends 200 for a plain
returned body. -/
def PResponse.status : PResponse → Nat
  | .prediction _ => 200
  | .fail c _ => c

/-- Embedding of the `/predict-stunting` handler `predict` (`src/app.py`
lines 98-149), after pydantic validation: ensure the models are loaded
(500 on failure), then run the pipeline, mapping `KeyError` and any other
exception to 400 with the literal (non-f-string) detail texts of the source. -/
def predict (st : Storage) (s : ServerState) (data : ConditionInput) : PResponse × ServerState :=
  let r := load_models st s
  if r.1 = false then
    (.fail 500 "Model gagal dimuat di server. Cek logs.", r.2)
  else
    match tryPipeline r.2 data with
    | .ok output => (.prediction output, r.2)
    | .error (.keyError _) => (.fail 400 "Key JSON tidak ditemukan: {str(e)}.", r.2)
    | .error (.otherError _) => (.fail 400 "Terjadi error saat prediksi: {str(e)}", r.2)

/-- One field of the incoming JSON body: missing, explicit `null`, or a
present (type-correct) value. -/
inductive JField (α : Type) where
  | absent
  | null
  | value (a : α)
  deriving DecidableEq, Repr

/-- The raw JSON body of a POST to `/predict-stunting`, before pydantic
validation. -/
structure RawRequest where
  jenis_kelamin : JField String
  umur : JField Int
  tinggi : JField ℚ
  berat : JField ℚ
  deriving DecidableEq, Repr

/-- Pydantic validation of the body against `ConditionInput`
(`src/app.py` lines 26-30): `jenis_kelamin: Optional[str] = "Laki-laki"`
accepts absence (default `"Laki-laki"`) and explicit `null` (becomes
`None`); the non-Optional fields `umur: int = 19`,
`tinggi: float = 91.60` and `berat: float = 13.30` accept absence
(default) but reject explicit `null` with a validation error. -/
def validate (raw : RawRequest) : Except String ConditionInput := do
  let jk ← match raw.jenis_kelamin with
    | .absent => Except.ok (some "Laki-laki")
    | .null => Except.ok none
    | .value s => Except.ok (some s)
  let u ← match raw.umur with
    | .absent => Except.ok (19 : Int)
    | .null => Except.error "umur: none is not an allowed value"
    | .value n => Except.ok n
  let t ← match raw.tinggi with
    | .absent => Except.ok (91.60 : ℚ)
    | .null => Except.error "tinggi: none is not an allowed value"
    | .value q => Except.ok q
  let b ← match raw.berat with
    | .absent => Except.ok (13.30 : ℚ)
    | .null => Except.error "berat: none is not an allowed value"
    | .value q => Except.ok q
  return ⟨jk, u, t, b⟩

/-- The full route behaviour of `POST /predict-stunting`: FastAPI runs
pydantic validation before the handler, answering 422 on a validation
error without touching the handler or the globals; otherwise the handler
`predict` runs on the validated input. -/
def handleRequest (st : Storage) (s : ServerState) (raw : RawRequest) : PResponse × ServerState :=
  match validate raw with
  | .error msg => (.fail 422 msg, s)
  | .ok data => predict st s data

/-- The nested `variable_translation` dictionary of the home body. -/
structure VariableTranslation where
  jenis_kelamin : String
  umur : String
  tinggi : String
  berat : String
  deriving DecidableEq, Repr

/-- The nested `usage_guide` dictionary of the home body. -/
structure UsageGuide where
  endpoint : String
  method : String
  body_format : String
  variable_translation : VariableTranslation
  deriving DecidableEq, Repr

/-- The JSON object returned by `GET /` (`src/app.py` lines 74-93). -/
structure HomeBody where
  status : String
  message : String
  version : String
  documentation : String
  usage_guide : UsageGuide
  author : String
  deriving DecidableEq, Repr

/-- Embedding of `home` (`src/app.py` lines 74-93): the literal
status/documentation object.  The function reads none of the four
globals. -/
def home : HomeBody :=
  { status := "online"
    message := "Stuntify AI API is ready to use"
    version := "1.0.1"
    documentation := "/docs"
    usage_guide :=
      { endpoint := "/predict-stunting"
        method := "POST"
        body_format := "JSON"
        variable_translation :=
          { jenis_kelamin := "Gender (Value: \x27Laki-laki\x27 for Male, \x27Perempuan\x27 for Female)"
            umur := "Age (Numeric, typically in months)"
            tinggi := "Height (Numeric, in cm)"
            berat := "Weight (Numeric, in kg)" } }
    author := "Silvio Christian, Joe" }

/-- The route behaviour of `GET /`: FastAPI answers 200 with the body
returned by `home`, whatever the storage and the process state are. -/
def home_route (st : Storage) (s : ServerState) : (Nat × HomeBody) × ServerState :=
  ((200, home), s)

/-! Concrete artifacts used to instantiate the theorems: a two-label
gender vocabulary, a four-class target vocabulary, an identity-like
scaler and a classifier that answers class 0 on any four-feature row. -/

/-- A gender encoder trained on the two documented labels. -/
def demoJkEncoder : LabelEncoder := ⟨["Laki-laki", "Perempuan"]⟩

/-- A target encoder with a small label vocabulary. -/
def demoStuntingEncoder : LabelEncoder := ⟨["Normal", "Severely Stunted", "Stunted", "Tinggi"]⟩

/-- A scaler with zero mean and unit scale on each column. -/
def demoScaler : Scaler := ⟨(0, 0, 0), (1, 1, 1)⟩

/-- A classifier that predicts class 0 for any row of four features. -/
def demoModel : Classifier :=
  ⟨fun v => if v.length = 4 then .ok 0 else .error (.otherError "ValueError: bad input shape")⟩

/-- A storage where all four artifact files deserialize. -/
def demoStorage : Storage := ⟨some demoModel, some demoScaler, some demoJkEncoder, some demoStuntingEncoder⟩

/-- A process state with all four globals populated. -/
def demoState : ServerState := ⟨some demoModel, some demoScaler, some demoJkEncoder, some demoStuntingEncoder⟩

/-- A storage where `best_model.joblib` deserializes but `scaler.joblib`
is missing, so the second `joblib.load` of `load_models` raises. -/
def badStorage : Storage := ⟨some demoModel, none, none, none⟩

/-- The validated input produced from an empty JSON body: all defaults. -/
def defaultInput : ConditionInput := ⟨some "Laki-laki", 19, 91.60, 13.30⟩

/-- The empty JSON body `{}`. -/
def emptyRaw : RawRequest := ⟨.absent, .absent, .absent, .absent⟩

/-- A body with an explicit `null` for `jenis_kelamin` and every other
field missing. -/
def rawNullGender : RawRequest := ⟨.null, .absent, .absent, .absent⟩

/-- A body with an explicit `null` for `umur` and every other field
missing. -/
def rawNullUmur : RawRequest := ⟨.absent, .null, .absent, .absent⟩

/-- The request of the out-of-vocabulary scenario:
`{"jenis_kelamin": "Other"}` after validation. -/
def dataOther : ConditionInput := ⟨some "Other", 19, 91.60, 13.30⟩

/-- A storage where no artifact file deserializes. -/
def emptyStorage : Storage := ⟨none, none, none, none⟩

/-- A storage where the first three artifact files deserialize but
`Stunting_encoder.joblib` — the last load of `load_models` — fails. -/
def badStorage2 : Storage := ⟨some demoModel, some demoScaler, some demoJkEncoder, none⟩

/-- One inbound request, dispatched to one of the two routes of the
service. -/
inductive Request where
  | home
  | predictStunting (raw : RawRequest)

/-- The effect of serving one request on the process-wide state; the
storage may differ between requests (files can appear or vanish on
disk). -/
def stepState (s : ServerState) (ev : Storage × Request) : ServerState :=
  match ev.2 with
  | .home => (home_route ev.1 s).2
  | .predictStunting raw => (handleRequest ev.1 s raw).2

/-- The process-wide state after serving a whole sequence of requests. -/
def runTrace (s : ServerState) (evs : List (Storage × Request)) : ServerState :=
  evs.foldl stepState s

/-! ## Basic lemmas -/

@[simp] theorem except_ok_bind {ε α β : Type} (a : α) (f : α → Except ε β) :
    (Except.ok a : Except ε α) >>= f = f a := rfl

@[simp] theorem except_error_bind {ε α β : Type} (e : ε) (f : α → Except ε β) :
    (Except.error e : Except ε α) >>= f = Except.error e := rfl

/-- Once the classifier global is populated, `load_models` is a no-op
returning `true`, whatever the storage holds. -/
theorem load_models_of_model_isSome (st : Storage) (s : ServerState)
    (h : s.model.isSome) : load_models st s = (true, s) := by
  simp [load_models, h]

/-- Whenever `load_models` returns `true`, the classifier global is
populated afterwards. -/
theorem model_isSome_of_load_models_true (st : Storage) (s : ServerState)
    (h : (load_models st s).1 = true) : ((load_models st s).2).model.isSome := by
  rcases st with ⟨bm, sc, jk, se⟩
  rcases hm : s.model with _ | m
  · cases bm <;> cases sc <;> cases jk <;> cases se <;> simp_all [load_models]
  · simp [load_models, hm]

/-- The handler mutates the globals only through `load_models`. -/
theorem predict_state (st : Storage) (s : ServerState) (data : ConditionInput) :
    (predict st s data).2 = (load_models st s).2 := by
  simp only [predict]
  split
  · rfl
  · split <;> rfl

/-- An out-of-vocabulary gender makes the encoding step raise and the
whole pipeline propagate that error. -/
theorem tryPipeline_oov (s : ServerState) (data : ConditionInput) (enc : LabelEncoder)
    (g : String) (hjk : s.jk_encoder = some enc) (hgen : data.jenis_kelamin = some g)
    (hnot : g ∉ enc.classes) :
    tryPipeline s data =
      .error (.otherError ("ValueError: y contains previously unseen labels: " ++ g)) := by
  simp [tryPipeline, getattr, hjk, hgen, LabelEncoder.transform1, hnot]

/-- A `None` gender always makes the pipeline raise an ordinary
exception: either the encoder global is still `None` (`AttributeError`)
or the encoder rejects the `None` label (`TypeError`). -/
theorem tryPipeline_none_gender (s : ServerState) (data : ConditionInput)
    (h : data.jenis_kelamin = none) :
    ∃ e, tryPipeline s data = .error (.otherError e) := by
  rcases hjk : s.jk_encoder with _ | enc
  · exact ⟨"AttributeError: NoneType object has no attribute transform",
      by simp [tryPipeline, getattr, hjk]⟩
  · exact ⟨"TypeError: encoders require string labels, got None",
      by simp [tryPipeline, getattr, hjk, h, LabelEncoder.transform1]⟩

/-- Once the classifier global is populated, serving any request leaves
the state untouched. -/
theorem stepState_const (s : ServerState) (hm : s.model.isSome) (ev : Storage × Request) :
    stepState s ev = s := by
  rcases ev with ⟨st2, req⟩
  rcases req with _ | raw
  · rfl
  · show (handleRequest st2 s raw).2 = s
    unfold handleRequest
    rcases validate raw with msg | data
    · rfl
    · rw [predict_state st2 s data, load_models_of_model_isSome st2 s hm]

/-- Once the classifier global is populated, no sequence of requests ever
changes the state. -/
theorem runTrace_const (s : ServerState) (hm : s.model.isSome) :
    ∀ evs : List (Storage × Request), runTrace s evs = s := by
  intro evs
  induction evs with
  | nil => rfl
  | cons ev evs ih =>
    show runTrace (stepState s ev) evs = s
    rw [stepState_const s hm ev, ih]

/-- When the load succeeds and the pipeline raises, the handler answers
400. -/
theorem predict_status_of_error (st : Storage) (s : ServerState) (data : ConditionInput)
    (e : PyError) (hload : (load_models st s).1 = true)
    (herr : tryPipeline ((load_models st s).2) data = .error e) :
    (predict st s data).1.status = 400 := by
  rcases e with m | m <;> simp [predict, hload, herr, PResponse.status]

/-! ## The claims -/

/-- C8: `GET /` answers 200 with the fixed status/documentation object
and leaves the process state untouched, for every storage and every
artifact state: its response does not depend on whether the artifact
files exist or whether any load attempt has succeeded or failed. -/
theorem home_independent_of_artifacts (st st2 : Storage) (s s2 : ServerState) :
    home_route st s = ((200, home), s) ∧
    (home_route st s).1 = (home_route st2 s2).1 :=
  ⟨rfl, rfl⟩

/-- C2: whenever the gender encoder and the scaler are in place and the
gender encodes to `g`, the feature row handed to the classifier is
exactly `[g, umur_scaled, tinggi_scaled, berat_scaled]` — the encoded
gender first, then the scaled age, scaled height and scaled weight, in
that fixed order. -/
theorem feature_vector_order (s : ServerState) (data : ConditionInput)
    (jkE : LabelEncoder) (sc : Scaler) (m : Classifier) (se : LabelEncoder) (g : ℚ)
    (hjk : s.jk_encoder = some jkE)
    (hsc : s.scaler = some sc)
    (hm : s.model = some m)
    (hse : s.stunting_encoder = some se)
    (hg : jkE.transform1 data.jenis_kelamin = .ok g) :
    tryPipeline s data =
      m.predict [g,
        (sc.transform1 ((data.umur : ℚ), data.tinggi, data.berat)).1,
        (sc.transform1 ((data.umur : ℚ), data.tinggi, data.berat)).2.1,
        (sc.transform1 ((data.umur : ℚ), data.tinggi, data.berat)).2.2] >>=
        se.inverse_transform1 := by
  simp [tryPipeline, getattr, hjk, hsc, hm, hse, hg]

/-- Witness for C2 at the demo bundle and the default input. -/
theorem feature_vector_order_witness :
    tryPipeline demoState defaultInput =
      demoModel.predict [0,
        (demoScaler.transform1 ((defaultInput.umur : ℚ), defaultInput.tinggi, defaultInput.berat)).1,
        (demoScaler.transform1 ((defaultInput.umur : ℚ), defaultInput.tinggi, defaultInput.berat)).2.1,
        (demoScaler.transform1 ((defaultInput.umur : ℚ), defaultInput.tinggi, defaultInput.berat)).2.2] >>=
        demoStuntingEncoder.inverse_transform1 :=
  feature_vector_order demoState defaultInput demoJkEncoder demoScaler demoModel
    demoStuntingEncoder 0 rfl rfl rfl rfl rfl

/-- C6: with the artifact bundle loaded, `predict` leaves the state
unchanged, ignores the storage, and a second call with the identical
input returns the identical response: the pipeline is a pure,
deterministic function of its input given the artifacts. -/
theorem predict_deterministic (st st2 : Storage) (s : ServerState) (data : ConditionInput)
    (hm : s.model.isSome) (hsc : s.scaler.isSome)
    (hjk : s.jk_encoder.isSome) (hse : s.stunting_encoder.isSome) :
    (predict st s data).2 = s ∧
    predict st2 s data = predict st s data ∧
    (predict st2 ((predict st s data).2) data).1 = (predict st s data).1 := by
  have h1 := load_models_of_model_isSome st s hm
  have h2 := load_models_of_model_isSome st2 s hm
  have hsnd : (predict st s data).2 = s := by
    rw [predict_state st s data, h1]
  have hsame : predict st2 s data = predict st s data := by
    simp [predict, h1, h2]
  exact ⟨hsnd, hsame, by rw [hsnd, hsame]⟩

/-- Witness for C6 at the demo bundle and the default input. -/
theorem predict_deterministic_witness :
    (predict demoStorage demoState defaultInput).2 = demoState ∧
    predict demoStorage demoState defaultInput = predict demoStorage demoState defaultInput ∧
    (predict demoStorage ((predict demoStorage demoState defaultInput).2) defaultInput).1 =
      (predict demoStorage demoState defaultInput).1 :=
  predict_deterministic demoStorage demoStorage demoState defaultInput rfl rfl rfl rfl

/-- C7: once `load_models` has returned `true`, every later call returns
`true` and leaves the state unchanged whatever the storage now holds (so
storage is not re-read), and no route — neither `/predict-stunting` nor
`/` — ever mutates the four globals again. -/
theorem loaded_state_is_final (st : Storage) (s : ServerState)
    (h : (load_models st s).1 = true) :
    (∀ st2, load_models st2 ((load_models st s).2) = (true, (load_models st s).2)) ∧
    (∀ st2 raw, (handleRequest st2 ((load_models st s).2) raw).2 = (load_models st s).2) ∧
    (∀ st2, (home_route st2 ((load_models st s).2)).2 = (load_models st s).2) ∧
    (∀ evs, runTrace ((load_models st s).2) evs = (load_models st s).2) := by
  have hm := model_isSome_of_load_models_true st s h
  refine ⟨fun st2 => load_models_of_model_isSome st2 _ hm, fun st2 raw => ?_, fun st2 => rfl,
    runTrace_const _ hm⟩
  unfold handleRequest
  rcases validate raw with msg | data
  · rfl
  · rw [predict_state st2 _ data, load_models_of_model_isSome st2 _ hm]

/-- Witness for C7 at the demo storage from the empty state, probed with
a later call against a different storage and a two-request trace. -/
theorem loaded_state_is_final_witness :
    load_models badStorage ((load_models demoStorage initialState).2) =
      (true, (load_models demoStorage initialState).2) ∧
    (handleRequest badStorage ((load_models demoStorage initialState).2) emptyRaw).2 =
      (load_models demoStorage initialState).2 ∧
    (home_route badStorage ((load_models demoStorage initialState).2)).2 =
      (load_models demoStorage initialState).2 ∧
    runTrace ((load_models demoStorage initialState).2)
        [(badStorage, .home), (emptyStorage, .predictStunting emptyRaw)] =
      (load_models demoStorage initialState).2 := by
  have h := loaded_state_is_final demoStorage initialState rfl
  exact ⟨h.1 badStorage, h.2.1 badStorage emptyRaw, h.2.2.1 badStorage,
    h.2.2.2 [(badStorage, .home), (emptyStorage, .predictStunting emptyRaw)]⟩

/-- C1 counterexample: with `best_model.joblib` loadable but
`scaler.joblib` failing, the first call returns `false` yet leaves the
classifier global populated (the state is not empty), and a subsequent
call — even against a storage where all four files now load — returns
`true` while the scaler global is still `None`: the full load is not
retried. -/
theorem load_failure_counterexample :
    (load_models badStorage initialState).1 = false ∧
    (load_models badStorage initialState).2.model.isSome = true ∧
    (load_models demoStorage ((load_models badStorage initialState).2)).1 = true ∧
    (load_models demoStorage ((load_models badStorage initialState).2)).2.scaler.isSome = false :=
  ⟨rfl, rfl, rfl, rfl⟩

/-- Common aftermath of a failing load whose run already assigned the
classifier: the call reports `false`, the classifier stays populated, the
label encoder (loaded last) never got assigned, and a subsequent call —
against any storage — returns `true` with the state unchanged. -/
theorem load_failure_aftermath (st2 st : Storage) (s : ServerState) (m : Classifier)
    (X : ServerState) (hres : load_models st s = (false, X))
    (hm : X.model = some m) (hse : X.stunting_encoder = none) :
    (load_models st s).1 = false ∧
    (load_models st s).2.model = some m ∧
    (load_models st s).2.stunting_encoder = none ∧
    load_models st2 ((load_models st s).2) = (true, (load_models st s).2) := by
  refine ⟨by rw [hres], by rw [hres]; exact hm, by rw [hres]; exact hse, ?_⟩
  rw [hres]
  exact load_models_of_model_isSome st2 X (by rw [hm]; rfl)

/-- C1 (amended): starting from the empty state, if the classifier itself
fails to deserialize then `load_models` returns `false`, the state stays
empty and the next call retries the full load from scratch; but if the
classifier deserializes and any later step — scaler, gender encoder or
label encoder — fails, `load_models` returns `false` with the classifier
global populated (and the label encoder never assigned), and every
subsequent call returns `true` immediately without loading the remaining
artifacts. -/
theorem load_failure_behavior (st st2 : Storage) (s : ServerState)
    (hempty : s = initialState) :
    (st.best_model = none →
      load_models st s = (false, s) ∧
      load_models st2 ((load_models st s).2) = load_models st2 s) ∧
    (∀ m, st.best_model = some m →
      (st.scaler = none ∨ st.jk_encoder = none ∨ st.stunting_encoder = none) →
      (load_models st s).1 = false ∧
      (load_models st s).2.model = some m ∧
      (load_models st s).2.stunting_encoder = none ∧
      load_models st2 ((load_models st s).2) = (true, (load_models st s).2)) := by
  subst hempty
  constructor
  · intro hbm
    have hres : load_models st initialState = (false, initialState) := by
      simp [load_models, initialState, hbm]
    exact ⟨hres, by rw [hres]⟩
  · intro m hbm hfail
    rcases hfail with h | h | h
    · exact load_failure_aftermath st2 st initialState m ⟨some m, none, none, none⟩
        (by simp [load_models, initialState, hbm, h]) rfl rfl
    · rcases hsc : st.scaler with _ | sc
      · exact load_failure_aftermath st2 st initialState m ⟨some m, none, none, none⟩
          (by simp [load_models, initialState, hbm, hsc]) rfl rfl
      · exact load_failure_aftermath st2 st initialState m ⟨some m, some sc, none, none⟩
          (by simp [load_models, initialState, hbm, hsc, h]) rfl rfl
    · rcases hsc : st.scaler with _ | sc
      · exact load_failure_aftermath st2 st initialState m ⟨some m, none, none, none⟩
          (by simp [load_models, initialState, hbm, hsc]) rfl rfl
      · rcases hjk : st.jk_encoder with _ | jk
        · exact load_failure_aftermath st2 st initialState m ⟨some m, some sc, none, none⟩
            (by simp [load_models, initialState, hbm, hsc, hjk]) rfl rfl
        · exact load_failure_aftermath st2 st initialState m ⟨some m, some sc, some jk, none⟩
            (by simp [load_models, initialState, hbm, hsc, hjk, h]) rfl rfl

/-- Witness for C1: the first-step failure at the fully missing storage,
a scaler-step failure, and a label-encoder-step failure. -/
theorem load_failure_behavior_witness :
    (load_models emptyStorage initialState = (false, initialState) ∧
      load_models demoStorage ((load_models emptyStorage initialState).2) =
        load_models demoStorage initialState) ∧
    ((load_models badStorage initialState).1 = false ∧
      (load_models badStorage initialState).2.model = some demoModel ∧
      (load_models badStorage initialState).2.stunting_encoder = none ∧
      load_models demoStorage ((load_models badStorage initialState).2) =
        (true, (load_models badStorage initialState).2)) ∧
    ((load_models badStorage2 initialState).1 = false ∧
      (load_models badStorage2 initialState).2.model = some demoModel ∧
      (load_models badStorage2 initialState).2.stunting_encoder = none ∧
      load_models demoStorage ((load_models badStorage2 initialState).2) =
        (true, (load_models badStorage2 initialState).2)) :=
  ⟨(load_failure_behavior emptyStorage demoStorage initialState rfl).1 rfl,
    (load_failure_behavior badStorage demoStorage initialState rfl).2 demoModel rfl
      (Or.inl rfl),
    (load_failure_behavior badStorage2 demoStorage initialState rfl).2 demoModel rfl
      (Or.inr (Or.inr rfl))⟩

/-- C9 counterexample: a call on which `load_models` returns `false`
although the classifier global is populated immediately after the call,
refuting the stated equivalence. -/
theorem load_true_iff_counterexample :
    (load_models badStorage initialState).1 = false ∧
    (load_models badStorage initialState).2.model.isSome = true :=
  ⟨rfl, rfl⟩

/-- C9 (amended): `load_models` returns `true` iff the classifier global
was already populated at entry or all four artifacts deserialize in this
call; the guard consults only the classifier, so a load attempt that
fails after assigning the classifier leaves the other three globals
exactly as they were while every later call returns `true` without
retrying them. -/
theorem load_true_iff_model (st st2 : Storage) (s : ServerState) :
    ((load_models st s).1 = true ↔
      (s.model.isSome ∨
        (st.best_model.isSome ∧ st.scaler.isSome ∧
          st.jk_encoder.isSome ∧ st.stunting_encoder.isSome))) ∧
    (∀ m, s.model = none → st.best_model = some m → st.scaler = none →
      (load_models st s).1 = false ∧
      (load_models st s).2.model = some m ∧
      (load_models st s).2.scaler = s.scaler ∧
      (load_models st s).2.jk_encoder = s.jk_encoder ∧
      (load_models st s).2.stunting_encoder = s.stunting_encoder ∧
      load_models st2 ((load_models st s).2) = (true, (load_models st s).2)) := by
  constructor
  · rcases st with ⟨bm, sc, jk, se⟩
    rcases hm : s.model with _ | m
    · cases bm <;> cases sc <;> cases jk <;> cases se <;> simp_all [load_models]
    · simp [load_models, hm]
  · intro m hm hbm hsc
    have hres : load_models st s = (false, { s with model := some m }) := by
      simp [load_models, hm, hbm, hsc]
    refine ⟨by rw [hres], by rw [hres], by rw [hres], by rw [hres], by rw [hres], ?_⟩
    rw [hres]
    exact load_models_of_model_isSome st2 _ rfl

/-- Witness for C9 at the partially loadable storage. -/
theorem load_true_iff_model_witness :
    ((load_models badStorage initialState).1 = true ↔
      (initialState.model.isSome ∨
        (badStorage.best_model.isSome ∧ badStorage.scaler.isSome ∧
          badStorage.jk_encoder.isSome ∧ badStorage.stunting_encoder.isSome))) ∧
    (load_models badStorage initialState).1 = false ∧
    (load_models badStorage initialState).2.model = some demoModel ∧
    (load_models badStorage initialState).2.scaler = initialState.scaler ∧
    (load_models badStorage initialState).2.jk_encoder = initialState.jk_encoder ∧
    (load_models badStorage initialState).2.stunting_encoder = initialState.stunting_encoder ∧
    load_models demoStorage ((load_models badStorage initialState).2) =
      (true, (load_models badStorage initialState).2) :=
  ⟨(load_true_iff_model badStorage demoStorage initialState).1,
    (load_true_iff_model badStorage demoStorage initialState).2 demoModel rfl rfl rfl⟩

/-- C3: for every POST to `/predict-stunting` whose body validated, the
status is 500 exactly when `load_models` returns `false`, 400 exactly
when the load succeeded and some step of encode/scale/predict/decode
raises, and 200 exactly when the load succeeded and the pipeline ran
through; a gender outside the trained vocabulary is such a raising step
and yields 400. -/
theorem predict_status_partition (st : Storage) (s : ServerState) (data : ConditionInput) :
    ((predict st s data).1.status = 500 ↔ (load_models st s).1 = false) ∧
    ((predict st s data).1.status = 400 ↔
      ((load_models st s).1 = true ∧
        ∃ e, tryPipeline ((load_models st s).2) data = .error e)) ∧
    ((predict st s data).1.status = 200 ↔
      ((load_models st s).1 = true ∧
        ∃ out, tryPipeline ((load_models st s).2) data = .ok out)) ∧
    (∀ enc g, (load_models st s).1 = true →
      ((load_models st s).2).jk_encoder = some enc →
      data.jenis_kelamin = some g → g ∉ enc.classes →
      (predict st s data).1.status = 400) := by
  rcases hb : (load_models st s).1 with _ | _
  · refine ⟨?_, ?_, ?_, ?_⟩ <;>
      simp [predict, hb, PResponse.status]
  · rcases htp : tryPipeline ((load_models st s).2) data with e | out
    · refine ⟨?_, ?_, ?_, ?_⟩
      · rcases e with m | m <;> simp [predict, hb, htp, PResponse.status]
      · rcases e with m | m <;> simp [predict, hb, htp, PResponse.status]
      · rcases e with m | m <;> simp [predict, hb, htp, PResponse.status]
      · intro enc g _ _ _ _
        exact predict_status_of_error st s data e hb htp
    · refine ⟨?_, ?_, ?_, ?_⟩
      · simp [predict, hb, htp, PResponse.status]
      · simp [predict, hb, htp, PResponse.status]
      · simp [predict, hb, htp, PResponse.status]
      · intro enc g _ hjk hgen hnot
        rw [tryPipeline_oov _ data enc g hjk hgen hnot] at htp
        exact absurd htp (by simp)

/-- Witness for C3: the out-of-vocabulary scenario
`{"jenis_kelamin": "Other"}` against a loadable storage answers 400. -/
theorem predict_status_partition_witness :
    (predict demoStorage initialState dataOther).1.status = 400 :=
  (predict_status_partition demoStorage initialState dataOther).2.2.2
    demoJkEncoder "Other" rfl rfl rfl (by decide)

/-- C4: whenever the load succeeded and the pipeline raises, the 400
response carries a detail string containing the literal placeholder text
rendered from the broken (non-f-string) source literal `"{str(e)}"`,
not the actual exception message. -/
theorem error_detail_placeholder (st : Storage) (s : ServerState) (data : ConditionInput)
    (e : PyError)
    (hload : (load_models st s).1 = true)
    (herr : tryPipeline ((load_models st s).2) data = .error e) :
    ∃ d, (predict st s data).1 = .fail 400 d ∧
      ∃ pre post, d = pre ++ "{str(e)}" ++ post := by
  rcases e with msg | msg
  · refine ⟨"Key JSON tidak ditemukan: {str(e)}.", ?_, "Key JSON tidak ditemukan: ", ".", rfl⟩
    simp [predict, hload, herr]
  · refine ⟨"Terjadi error saat prediksi: {str(e)}", ?_, "Terjadi error saat prediksi: ", "", rfl⟩
    simp [predict, hload, herr]

/-- Witness for C4 at the out-of-vocabulary request. -/
theorem error_detail_placeholder_witness :
    ∃ d, (predict demoStorage initialState dataOther).1 = .fail 400 d ∧
      ∃ pre post, d = pre ++ "{str(e)}" ++ post :=
  error_detail_placeholder demoStorage initialState dataOther
    (.otherError ("ValueError: y contains previously unseen labels: " ++ "Other")) rfl rfl

/-- C5: the empty JSON body `{}` validates to the documented defaults
(gender "Laki-laki", age 19, height 91.60, weight 13.30); when the load
succeeds and the pipeline yields a non-empty label on those defaults, the
route answers 200 with that non-empty label. -/
theorem empty_body_defaults (st : Storage) (s : ServerState) (lbl : String)
    (hload : (load_models st s).1 = true)
    (hrun : tryPipeline ((load_models st s).2) defaultInput = .ok lbl)
    (hne : lbl ≠ "") :
    validate emptyRaw = .ok defaultInput ∧
    (handleRequest st s emptyRaw).1 = .prediction lbl ∧
    (handleRequest st s emptyRaw).1.status = 200 ∧
    lbl ≠ "" := by
  have hv : validate emptyRaw = .ok defaultInput := rfl
  have hp : (handleRequest st s emptyRaw).1 = .prediction lbl := by
    simp [handleRequest, hv, predict, hload, hrun]
  exact ⟨hv, hp, by rw [hp]; rfl, hne⟩

/-- Witness for C5: the demo bundle answers `{"prediction": "Normal"}` on
an empty body. -/
theorem empty_body_defaults_witness :
    validate emptyRaw = .ok defaultInput ∧
    (handleRequest demoStorage initialState emptyRaw).1 = .prediction "Normal" ∧
    (handleRequest demoStorage initialState emptyRaw).1.status = 200 ∧
    "Normal" ≠ "" :=
  empty_body_defaults demoStorage initialState "Normal" rfl rfl (by decide)

/-- C10: an explicit JSON `null` for `jenis_kelamin` passes validation —
the validated input carries `None`, not the documented default — and,
with the load succeeding, the request ends in 400 from the pipeline; an
explicit `null` for any of the three numeric (non-Optional) fields is
rejected by validation with 422 before the handler or the pipeline runs,
leaving the state untouched. -/
theorem null_gender_vs_null_numeric (st : Storage) (s : ServerState) (raw : RawRequest)
    (hjk : raw.jenis_kelamin = .null)
    (hu : raw.umur ≠ .null) (ht : raw.tinggi ≠ .null) (hb : raw.berat ≠ .null)
    (hload : (load_models st s).1 = true) :
    (∃ data, validate raw = .ok data ∧ data.jenis_kelamin = none) ∧
    (handleRequest st s raw).1.status = 400 ∧
    (∀ raw2 : RawRequest,
      (raw2.umur = .null ∨ raw2.tinggi = .null ∨ raw2.berat = .null) →
      (∃ msg, validate raw2 = .error msg) ∧
      (handleRequest st s raw2).1.status = 422 ∧
      (handleRequest st s raw2).2 = s) := by
  rcases raw with ⟨jk, u, t, b⟩
  subst hjk
  have hval : ∃ data, validate ⟨.null, u, t, b⟩ = .ok data ∧ data.jenis_kelamin = none := by
    cases u <;> cases t <;> cases b <;> simp_all [validate]
  refine ⟨hval, ?_, ?_⟩
  · rcases hval with ⟨data, hv, hgen⟩
    rcases tryPipeline_none_gender ((load_models st s).2) data hgen with ⟨e, he⟩
    have h400 := predict_status_of_error st s data (.otherError e) hload he
    simp [handleRequest, hv, h400]
  · intro raw2 h2
    rcases raw2 with ⟨jk2, u2, t2, b2⟩
    have herr : ∃ msg, validate ⟨jk2, u2, t2, b2⟩ = .error msg := by
      rcases h2 with h2 | h2 | h2 <;> subst h2
      · cases jk2 <;> simp [validate]
      · cases jk2 <;> cases u2 <;> simp [validate]
      · cases jk2 <;> cases u2 <;> cases t2 <;> simp [validate]
    rcases herr with ⟨msg, hm⟩
    exact ⟨⟨msg, hm⟩, by simp [handleRequest, hm, PResponse.status],
      by simp [handleRequest, hm]⟩

/-- Witness for C10: gender `null` answers 400 against the demo storage,
`umur` `null` is rejected with 422 and an unchanged state. -/
theorem null_gender_vs_null_numeric_witness :
    (∃ data, validate rawNullGender = .ok data ∧ data.jenis_kelamin = none) ∧
    (handleRequest demoStorage initialState rawNullGender).1.status = 400 ∧
    (∃ msg, validate rawNullUmur = .error msg) ∧
    (handleRequest demoStorage initialState rawNullUmur).1.status = 422 ∧
    (handleRequest demoStorage initialState rawNullUmur).2 = initialState := by
  have h := null_gender_vs_null_numeric demoStorage initialState rawNullGender rfl
    (by decide) (by decide) (by decide) rfl
  have h3 := h.2.2 rawNullUmur (Or.inl rfl)
  exact ⟨h.1, h.2.1, h3.1, h3.2.1, h3.2.2⟩

end Stuntify
